import Mathlib

/-!
Verification of the chrds MIDI decoding header (`include/chrds.hpp`).

The C++ core is a pair of non-owning views over caller memory:

* `MessageView` wraps exactly 3 bytes (`status`, `data_0`, `data_1`),
  classifies the message from the status byte's top nibble (`kind`), and
  exposes typed accessors.  `kind` throws `InvalidMidiData` when the top
  bit of the status byte is clear; the kind-specific accessors guard
  their preconditions only with debug-time assertions
  (`CHRDS_ASSERT`), which compile to nothing in release builds, so here
  they are embedded with their release (unchecked) semantics, and each
  assertion condition is recorded separately as a `Prop`.
* `MessagesView` wraps a whole buffer, rejects lengths not divisible by
  3 with `InvalidMidiDataLength`, and exposes a random-access iterator
  that steps in 3-byte strides.

Bytes are embedded as `Nat` with an explicit `% 256` wherever the C++
casts a stored value to `std::uint8_t`; the `std::int16_t` cast in
`pitch_wheel` is embedded as reinterpretation of the low 16 bits as a
two's-complement value (`int16OfBits`).  Iterators are embedded as a
buffer together with a signed byte offset (`Int`), mirroring pointer
arithmetic; the signed division in the iterator's `operator-` is C++
truncating division, i.e. `Int.tdiv`.
-/

set_option maxRecDepth 100000

namespace chrds

namespace midi

/-- The eight MIDI message kinds, as in the C++ `enum class MessageKind`. -/
inductive MessageKind where
  | NoteOff
  | NoteOn
  | PolyAftertouch
  | ControlChange
  | ProgramChange
  | ChannelAftertouch
  | PitchWheel
  | SystemExclusive
  deriving DecidableEq

/-- The `InvalidMidiData` exception (it carries no payload beyond a fixed message). -/
inductive InvalidMidiData where
  | mk
  deriving DecidableEq

/-- The `InvalidMidiDataLength` exception (fixed message, no payload). -/
inductive InvalidMidiDataLength where
  | mk
  deriving DecidableEq

instance {ε α : Type} [DecidableEq ε] [DecidableEq α] : DecidableEq (Except ε α) := fun a b =>
  match a, b with
  | .ok x, .ok y => decidable_of_iff (x = y) (by simp)
  | .error x, .error y => decidable_of_iff (x = y) (by simp)
  | .ok _, .error _ => isFalse (by simp)
  | .error _, .ok _ => isFalse (by simp)

/-- `MessageView<T>`: a window over exactly 3 bytes.  The C++ class stores a
`std::span<T, 3>`; here the three referenced bytes are the fields.  A stored
byte-like value is an arbitrary `Nat`; every read that the C++ performs
through `static_cast<std::uint8_t>` appears below as `% 256`. -/
structure MessageView where
  status : Nat
  data_0 : Nat
  data_1 : Nat
  deriving DecidableEq

/-- `MessageView::kind`: switch on `static_cast<std::uint8_t>(status()) & 0xf0`;
unlisted nibbles throw `InvalidMidiData`. -/
def MessageView.kind (m : MessageView) : Except InvalidMidiData MessageKind :=
  match (m.status % 256) &&& 0xf0 with
  | 0x80 => .ok .NoteOff
  | 0x90 => .ok .NoteOn
  | 0xA0 => .ok .PolyAftertouch
  | 0xB0 => .ok .ControlChange
  | 0xC0 => .ok .ProgramChange
  | 0xD0 => .ok .ChannelAftertouch
  | 0xE0 => .ok .PitchWheel
  | 0xF0 => .ok .SystemExclusive
  | _ => .error InvalidMidiData.mk

/-- `MessageView::channel` (release semantics: the `CHRDS_ASSERT` is compiled
out): `static_cast<std::uint8_t>(status()) & 0x0f`. -/
def MessageView.channel (m : MessageView) : Nat :=
  (m.status % 256) &&& 0x0f

/-- The condition of the debug assertion inside `MessageView::channel`. -/
def MessageView.channel_expected (m : MessageView) : Prop :=
  m.kind ≠ .ok .SystemExclusive

/-- `MessageView::note` (release semantics): `static_cast<std::uint8_t>(data_0())`. -/
def MessageView.note (m : MessageView) : Nat :=
  m.data_0 % 256

/-- The condition of the debug assertion inside `MessageView::note`: the kind
is found in `{NoteOff, NoteOn, PolyAftertouch}`. -/
def MessageView.note_expected (m : MessageView) : Prop :=
  m.kind = .ok .NoteOff ∨ m.kind = .ok .NoteOn ∨ m.kind = .ok .PolyAftertouch

/-- `MessageView::velocity` (release semantics): `static_cast<std::uint8_t>(data_1())`. -/
def MessageView.velocity (m : MessageView) : Nat :=
  m.data_1 % 256

/-- The condition of the debug assertion inside `MessageView::velocity`: the
kind is found in `{NoteOff, NoteOn}`. -/
def MessageView.velocity_expected (m : MessageView) : Prop :=
  m.kind = .ok .NoteOff ∨ m.kind = .ok .NoteOn

/-- `MessageView::pressure`: a switch on `kind()` — the call to `kind()` is
unconditional, so a data-byte status propagates `InvalidMidiData`.  The
`default` branch holds `CHRDS_ASSERT(false); return 0;`, so its release
semantics is returning `0`. -/
def MessageView.pressure (m : MessageView) : Except InvalidMidiData Nat :=
  match m.kind with
  | .error e => .error e
  | .ok .PolyAftertouch => .ok (m.data_0 % 256)
  | .ok .ChannelAftertouch => .ok (m.data_1 % 256)
  | .ok _ => .ok 0

/-- `MessageView::cc_controller` (release semantics): `static_cast<uint8_t>(data_0())`. -/
def MessageView.cc_controller (m : MessageView) : Nat :=
  m.data_0 % 256

/-- `MessageView::cc_value` (release semantics): `static_cast<uint8_t>(data_1())`. -/
def MessageView.cc_value (m : MessageView) : Nat :=
  m.data_1 % 256

/-- The condition of the debug assertion inside `MessageView::cc_controller`
and `MessageView::cc_value`. -/
def MessageView.cc_expected (m : MessageView) : Prop :=
  m.kind = .ok .ControlChange

/-- `MessageView::program_number` (release semantics): `static_cast<uint8_t>(data_0())`. -/
def MessageView.program_number (m : MessageView) : Nat :=
  m.data_0 % 256

/-- The condition of the debug assertion inside `MessageView::program_number`. -/
def MessageView.program_expected (m : MessageView) : Prop :=
  m.kind = .ok .ProgramChange

/-- Reinterpretation of the low 16 bits of a natural number as a
two's-complement `std::int16_t` value, embedding the C++
`static_cast<std::int16_t>` of an unsigned 16-bit quantity. -/
def int16OfBits (v : Nat) : Int :=
  if v % 65536 < 32768 then ((v % 65536 : Nat) : Int)
  else ((v % 65536 : Nat) : Int) - 65536

/-- `MessageView::pitch_wheel`:
`static_cast<std::int16_t>((static_cast<std::uint16_t>(data_1()) << 8) + static_cast<std::uint16_t>(data_0()))`.
There is no assertion and no call to `kind()` in this accessor. -/
def MessageView.pitch_wheel (m : MessageView) : Int :=
  int16OfBits (((m.data_1 % 256) <<< 8) + (m.data_0 % 256))

/-- `MessagesView<T>`: a window over a whole byte buffer (`std::span<T>`),
embedded as the list of referenced bytes. -/
structure MessagesView where
  _data : List Nat
  deriving DecidableEq

/-- The `MessagesView` constructor: throws `InvalidMidiDataLength` when
`data.size() % 3 != 0`, otherwise stores the span. -/
def MessagesView.construct (data : List Nat) : Except InvalidMidiDataLength MessagesView :=
  if data.length % 3 ≠ 0 then .error InvalidMidiDataLength.mk else .ok ⟨data⟩

/-- `MessagesView::MessageIterator`: wraps a `std::span<T>::iterator`,
embedded as the underlying buffer plus a signed byte offset (pointer
arithmetic on the span's storage). -/
structure MessageIterator where
  buf : List Nat
  _span_it : Int
  deriving DecidableEq

/-- `MessageIterator::operator++`: `_span_it += 3`. -/
def MessageIterator.inc (it : MessageIterator) : MessageIterator :=
  { it with _span_it := it._span_it + 3 }

/-- `MessageIterator::operator--`: `_span_it -= 3`. -/
def MessageIterator.dec (it : MessageIterator) : MessageIterator :=
  { it with _span_it := it._span_it - 3 }

/-- `MessageIterator::operator-(const MessageIterator&)`:
`(_span_it - other._span_it) / 3` in `std::ptrdiff_t` arithmetic;
C++ signed division truncates toward zero, hence `Int.tdiv`. -/
def MessageIterator.distance (it other : MessageIterator) : Int :=
  (it._span_it - other._span_it).tdiv 3

/-- `MessageIterator::operator+(difference_type)`: `_span_it + 3 * delta`. -/
def MessageIterator.add (it : MessageIterator) (delta : Int) : MessageIterator :=
  { it with _span_it := it._span_it + 3 * delta }

/-- `MessageIterator::operator-(difference_type)`: `_span_it - 3 * delta`. -/
def MessageIterator.sub (it : MessageIterator) (delta : Int) : MessageIterator :=
  { it with _span_it := it._span_it - 3 * delta }

/-- `MessageIterator::operator*`: a `MessageView` over the 3 bytes at the
current offset (`std::span<T, 3>(_span_it, 3)`).  Reading in bounds is the
caller's obligation; out-of-range list reads default to `0` here, the way a
shallow embedding renders a contract violation harmlessly. -/
def MessageIterator.deref (it : MessageIterator) : MessageView :=
  ⟨it.buf.getD it._span_it.toNat 0,
   it.buf.getD (it._span_it.toNat + 1) 0,
   it.buf.getD (it._span_it.toNat + 2) 0⟩

/-- `MessageIterator::operator[]`: `*(*this + delta)`. -/
def MessageIterator.index (it : MessageIterator) (delta : Int) : MessageView :=
  (it.add delta).deref

/-- `MessageIterator.incN it k` applies `operator++` `k` times. -/
def MessageIterator.incN (it : MessageIterator) : Nat → MessageIterator
  | 0 => it
  | k + 1 => (it.incN k).inc

/-- Modelled from the spec: the sequence view's element count, `length / 3`
(§3: "the sequence has exactly `length / 3` elements").  The source header
declares no public size accessor. -/
def MessagesView.element_count (v : MessagesView) : Nat :=
  v._data.length / 3

/-- Modelled from the spec: the iterator positioned on element 0 (§2:
"starting at offset 0, advancing by 3 bytes per element").  The source
header declares no public `begin`. -/
def MessagesView.begin (v : MessagesView) : MessageIterator :=
  ⟨v._data, 0⟩

/-- The `MessageView` over buffer bytes `[3i, 3i+3)`. -/
def viewAt (buf : List Nat) (i : Nat) : MessageView :=
  ⟨buf.getD (3 * i) 0, buf.getD (3 * i + 1) 0, buf.getD (3 * i + 2) 0⟩

/-- One core operation, with the data identifying which window or iterator
position it acts on.  Used to state buffer-preservation across the whole
API surface. -/
inductive CoreOp where
  | kindOp (i : Nat)
  | channelOp (i : Nat)
  | noteOp (i : Nat)
  | velocityOp (i : Nat)
  | pressureOp (i : Nat)
  | ccControllerOp (i : Nat)
  | ccValueOp (i : Nat)
  | programNumberOp (i : Nat)
  | pitchWheelOp (i : Nat)
  | constructOp
  | indexOp (delta : Int)
  | derefOp (off : Int)
  | incOp (off : Int)
  | decOp (off : Int)
  | addOp (off delta : Int)
  | subOp (off delta : Int)
  | distanceOp (offA offB : Int)

/-- The result of one core operation. -/
inductive OpResult where
  | kindResult (r : Except InvalidMidiData MessageKind)
  | byteResult (b : Nat)
  | pressureResult (r : Except InvalidMidiData Nat)
  | intResult (v : Int)
  | seqResult (r : Except InvalidMidiDataLength MessagesView)
  | viewResult (v : MessageView)
  | iterResult (it : MessageIterator)

/-- State-passing semantics of the core: each operation is run against the
buffer and hands the buffer back, since every C++ member only reads through
`const` accessors over the span. -/
def runOp : CoreOp → List Nat → OpResult × List Nat
  | .kindOp i, buf => (.kindResult (viewAt buf i).kind, buf)
  | .channelOp i, buf => (.byteResult (viewAt buf i).channel, buf)
  | .noteOp i, buf => (.byteResult (viewAt buf i).note, buf)
  | .velocityOp i, buf => (.byteResult (viewAt buf i).velocity, buf)
  | .pressureOp i, buf => (.pressureResult (viewAt buf i).pressure, buf)
  | .ccControllerOp i, buf => (.byteResult (viewAt buf i).cc_controller, buf)
  | .ccValueOp i, buf => (.byteResult (viewAt buf i).cc_value, buf)
  | .programNumberOp i, buf => (.byteResult (viewAt buf i).program_number, buf)
  | .pitchWheelOp i, buf => (.intResult (viewAt buf i).pitch_wheel, buf)
  | .constructOp, buf => (.seqResult (MessagesView.construct buf), buf)
  | .indexOp delta, buf => (.viewResult ((MessagesView.begin ⟨buf⟩).index delta), buf)
  | .derefOp off, buf => (.viewResult (MessageIterator.deref ⟨buf, off⟩), buf)
  | .incOp off, buf => (.iterResult (MessageIterator.inc ⟨buf, off⟩), buf)
  | .decOp off, buf => (.iterResult (MessageIterator.dec ⟨buf, off⟩), buf)
  | .addOp off delta, buf => (.iterResult (MessageIterator.add ⟨buf, off⟩ delta), buf)
  | .subOp off delta, buf => (.iterResult (MessageIterator.sub ⟨buf, off⟩ delta), buf)
  | .distanceOp offA offB, buf => (.intResult (MessageIterator.distance ⟨buf, offA⟩ ⟨buf, offB⟩), buf)

/-! ### Helper lemmas -/

/-- `kind` only reads the status byte, reduced modulo 256 — the two windows
below classify identically. -/
theorem kind_status_mod (s d0 d1 : Nat) :
    MessageView.kind ⟨s, d0, d1⟩ = MessageView.kind ⟨s % 256, 0, 0⟩ := by
  simp only [MessageView.kind]
  rw [Nat.mod_mod_of_dvd s (dvd_refl 256)]

/-- Shifting left by `k` and or-ing in a value below `2 ^ k` is plain
positional arithmetic. -/
theorem shiftLeft_lor_eq_add (a : Nat) : ∀ k b : Nat, b < 2 ^ k → a <<< k ||| b = a * 2 ^ k + b := by
  intro k
  induction k generalizing a with
  | zero =>
    intro b hb
    have hb0 : b = 0 := by simpa using hb
    subst hb0
    simp [Nat.shiftLeft_zero]
  | succ k ih =>
    intro b hb
    have hpow : 2 ^ (k + 1) = 2 ^ k * 2 := Nat.pow_succ ..
    have hhalf : b >>> 1 < 2 ^ k := by
      rw [Nat.shiftRight_one]
      omega
    have hbit : Nat.bit false (a <<< k) = a <<< (k + 1) := by
      rw [Nat.shiftLeft_succ]
      rfl
    calc a <<< (k + 1) ||| b
        = Nat.bit false (a <<< k) ||| Nat.bit (b % 2 = 1) (b >>> 1) := by
          rw [hbit, Nat.bit_decide_mod_two_eq_one_shiftRight_one]
      _ = Nat.bit (false || decide (b % 2 = 1)) (a <<< k ||| b >>> 1) := Nat.lor_bit ..
      _ = Nat.bit (b % 2 = 1) (a * 2 ^ k + b >>> 1) := by rw [Bool.false_or, ih _ _ hhalf]
      _ = a * 2 ^ (k + 1) + b := by
          rw [Nat.bit_val, Nat.shiftRight_one]
          have hmul : a * 2 ^ (k + 1) = 2 * (a * 2 ^ k) := by rw [hpow]; ring
          rcases Nat.mod_two_eq_zero_or_one b with h | h <;> simp [h] <;> omega

/-- Any status byte whose top bit is clear makes `kind` report `InvalidMidiData`. -/
theorem kind_error_of_top_bit_clear (s d0 d1 : Nat) (h : s % 256 < 128) :
    MessageView.kind ⟨s, d0, d1⟩ = .error InvalidMidiData.mk := by
  rw [kind_status_mod]
  have key : ∀ b : Fin 256, b.val < 128 →
      MessageView.kind ⟨b.val, 0, 0⟩ = .error InvalidMidiData.mk := by decide
  exact key ⟨s % 256, Nat.mod_lt _ (by norm_num)⟩ h

/-! ### Claims -/

/-- Claim C1: for every 3-byte window, if the top bit of the status byte is
set then `kind` returns the `MessageKind` selected by the top nibble
(0x8 NoteOff, 0x9 NoteOn, 0xA PolyAftertouch, 0xB ControlChange,
0xC ProgramChange, 0xD ChannelAftertouch, 0xE PitchWheel,
0xF SystemExclusive), and `kind` reports `InvalidMidiData` exactly when the
top bit is clear — so an error and the eight nibble cases are the only
outcomes. -/
theorem kind_top_nibble_mapping (s d0 d1 : Nat) :
    ((s % 256) / 16 = 0x8 → MessageView.kind ⟨s, d0, d1⟩ = .ok .NoteOff) ∧
    ((s % 256) / 16 = 0x9 → MessageView.kind ⟨s, d0, d1⟩ = .ok .NoteOn) ∧
    ((s % 256) / 16 = 0xA → MessageView.kind ⟨s, d0, d1⟩ = .ok .PolyAftertouch) ∧
    ((s % 256) / 16 = 0xB → MessageView.kind ⟨s, d0, d1⟩ = .ok .ControlChange) ∧
    ((s % 256) / 16 = 0xC → MessageView.kind ⟨s, d0, d1⟩ = .ok .ProgramChange) ∧
    ((s % 256) / 16 = 0xD → MessageView.kind ⟨s, d0, d1⟩ = .ok .ChannelAftertouch) ∧
    ((s % 256) / 16 = 0xE → MessageView.kind ⟨s, d0, d1⟩ = .ok .PitchWheel) ∧
    ((s % 256) / 16 = 0xF → MessageView.kind ⟨s, d0, d1⟩ = .ok .SystemExclusive) ∧
    (MessageView.kind ⟨s, d0, d1⟩ = .error InvalidMidiData.mk ↔ s % 256 < 128) := by
  rw [kind_status_mod]
  have key : ∀ b : Fin 256,
      (b.val / 16 = 0x8 → MessageView.kind ⟨b.val, 0, 0⟩ = .ok .NoteOff) ∧
      (b.val / 16 = 0x9 → MessageView.kind ⟨b.val, 0, 0⟩ = .ok .NoteOn) ∧
      (b.val / 16 = 0xA → MessageView.kind ⟨b.val, 0, 0⟩ = .ok .PolyAftertouch) ∧
      (b.val / 16 = 0xB → MessageView.kind ⟨b.val, 0, 0⟩ = .ok .ControlChange) ∧
      (b.val / 16 = 0xC → MessageView.kind ⟨b.val, 0, 0⟩ = .ok .ProgramChange) ∧
      (b.val / 16 = 0xD → MessageView.kind ⟨b.val, 0, 0⟩ = .ok .ChannelAftertouch) ∧
      (b.val / 16 = 0xE → MessageView.kind ⟨b.val, 0, 0⟩ = .ok .PitchWheel) ∧
      (b.val / 16 = 0xF → MessageView.kind ⟨b.val, 0, 0⟩ = .ok .SystemExclusive) ∧
      (MessageView.kind ⟨b.val, 0, 0⟩ = .error InvalidMidiData.mk ↔ b.val < 128) := by
    decide
  exact key ⟨s % 256, Nat.mod_lt _ (by norm_num)⟩

/-- Concrete instance of C1: `0x90` classifies as NoteOn and `0x00` reports
`InvalidMidiData`. -/
theorem kind_top_nibble_mapping_witness :
    MessageView.kind ⟨0x90, 0x3C, 0x64⟩ = .ok .NoteOn ∧
    MessageView.kind ⟨0x00, 0x01, 0x02⟩ = .error InvalidMidiData.mk :=
  ⟨(kind_top_nibble_mapping 0x90 0x3C 0x64).2.1 (by decide),
   (kind_top_nibble_mapping 0x00 0x01 0x02).2.2.2.2.2.2.2.2.mpr (by decide)⟩

/-- Claim C2: for every 3-byte record with data bytes in `[0,255]`,
`pitch_wheel` equals exactly `(d1 <<< 8) ||| d0` reinterpreted as a signed
16-bit integer — a raw recombination, with no rebasing to the 14-bit
bipolar range. -/
theorem pitch_wheel_exact (s d0 d1 : Nat) (h0 : d0 < 256) (h1 : d1 < 256) :
    MessageView.pitch_wheel ⟨s, d0, d1⟩ = int16OfBits ((d1 <<< 8) ||| d0) := by
  have hlor : (d1 <<< 8) ||| d0 = d1 <<< 8 + d0 := by
    rw [shiftLeft_lor_eq_add d1 8 d0 (by omega), Nat.shiftLeft_eq]
  simp only [MessageView.pitch_wheel, hlor, Nat.mod_eq_of_lt h0, Nat.mod_eq_of_lt h1]

/-- Concrete instance of C2: the record `(0xE0, 0x00, 0x40)` recombines to
`0x4000 = 16384`. -/
theorem pitch_wheel_exact_witness :
    MessageView.pitch_wheel ⟨0xE0, 0x00, 0x40⟩ = int16OfBits ((0x40 <<< 8) ||| 0x00) ∧
    int16OfBits ((0x40 <<< 8) ||| 0x00) = 16384 :=
  ⟨pitch_wheel_exact 0xE0 0x00 0x40 (by decide) (by decide), by decide⟩

/-- Claim C7: `pitch_wheel` enforces no kind precondition: it is a total
recombination of the two data bytes, returning a value even on windows whose
status byte has its top bit clear — exactly the windows on which `kind`
reports `InvalidMidiData`. -/
theorem pitch_wheel_no_kind_check (s d0 d1 : Nat) :
    MessageView.pitch_wheel ⟨s, d0, d1⟩ = int16OfBits (((d1 % 256) <<< 8) + (d0 % 256)) ∧
    (s % 256 < 128 → MessageView.kind ⟨s, d0, d1⟩ = .error InvalidMidiData.mk) :=
  ⟨rfl, fun h => kind_error_of_top_bit_clear s d0 d1 h⟩

/-- Concrete instance of C7: on the window `(0x00, 0x01, 0x02)` the kind
reports `InvalidMidiData`, yet `pitch_wheel` returns `0x0201 = 513`. -/
theorem pitch_wheel_no_kind_check_witness :
    MessageView.kind ⟨0x00, 0x01, 0x02⟩ = .error InvalidMidiData.mk ∧
    MessageView.pitch_wheel ⟨0x00, 0x01, 0x02⟩ =
      int16OfBits (((0x02 % 256) <<< 8) + (0x01 % 256)) ∧
    MessageView.pitch_wheel ⟨0x00, 0x01, 0x02⟩ = 513 :=
  ⟨(pitch_wheel_no_kind_check 0x00 0x01 0x02).2 (by decide),
   (pitch_wheel_no_kind_check 0x00 0x01 0x02).1, by decide⟩

/-- Claim C3: constructing a sequence view reports `InvalidMidiDataLength`
exactly when the buffer length is not a multiple of 3, and succeeds (storing
the buffer) exactly when it is — including the empty buffer. -/
theorem construct_length_check (buf : List Nat) :
    (MessagesView.construct buf = .error InvalidMidiDataLength.mk ↔ buf.length % 3 ≠ 0) ∧
    (MessagesView.construct buf = .ok ⟨buf⟩ ↔ buf.length % 3 = 0) := by
  by_cases h : buf.length % 3 = 0 <;> simp [MessagesView.construct, h]

/-- Claim C5: on every 3-byte record classified NoteOn or NoteOff, `note`
returns `d0`, `velocity` returns `d1`, and `channel` returns `s &&& 0x0F`. -/
theorem note_velocity_channel_decode (s d0 d1 : Nat)
    (hs : s < 256) (h0 : d0 < 256) (h1 : d1 < 256)
    (hk : MessageView.kind ⟨s, d0, d1⟩ = .ok .NoteOn ∨
          MessageView.kind ⟨s, d0, d1⟩ = .ok .NoteOff) :
    MessageView.note ⟨s, d0, d1⟩ = d0 ∧
    MessageView.velocity ⟨s, d0, d1⟩ = d1 ∧
    MessageView.channel ⟨s, d0, d1⟩ = s &&& 0x0F := by
  refine ⟨?_, ?_, ?_⟩ <;>
    simp [MessageView.note, MessageView.velocity, MessageView.channel,
      Nat.mod_eq_of_lt hs, Nat.mod_eq_of_lt h0, Nat.mod_eq_of_lt h1]

/-- Concrete instance of C5: the spec scenario `[0x90, 0x3C, 0x64]` decodes
to NoteOn with channel 0, note 60, velocity 100. -/
theorem note_velocity_channel_decode_witness :
    MessageView.note ⟨0x90, 0x3C, 0x64⟩ = 60 ∧
    MessageView.velocity ⟨0x90, 0x3C, 0x64⟩ = 100 ∧
    MessageView.channel ⟨0x90, 0x3C, 0x64⟩ = 0x90 &&& 0x0F :=
  note_velocity_channel_decode 0x90 0x3C 0x64 (by decide) (by decide) (by decide)
    (Or.inl (by decide))

/-- Claim C8: on a record classified PolyAftertouch, `pressure` returns the
first data byte; on a record classified ChannelAftertouch it returns the
second. -/
theorem pressure_decode (s d0 d1 : Nat) (h0 : d0 < 256) (h1 : d1 < 256) :
    (MessageView.kind ⟨s, d0, d1⟩ = .ok .PolyAftertouch →
      MessageView.pressure ⟨s, d0, d1⟩ = .ok d0) ∧
    (MessageView.kind ⟨s, d0, d1⟩ = .ok .ChannelAftertouch →
      MessageView.pressure ⟨s, d0, d1⟩ = .ok d1) := by
  constructor <;> intro hk <;>
    simp [MessageView.pressure, hk, Nat.mod_eq_of_lt h0, Nat.mod_eq_of_lt h1]

/-- Concrete instance of C8: `(0xA2, 5, 6)` is PolyAftertouch with pressure
5, and `(0xD2, 5, 6)` is ChannelAftertouch with pressure 6. -/
theorem pressure_decode_witness :
    MessageView.pressure ⟨0xA2, 5, 6⟩ = .ok 5 ∧
    MessageView.pressure ⟨0xD2, 5, 6⟩ = .ok 6 :=
  ⟨(pressure_decode 0xA2 5 6 (by decide) (by decide)).1 (by decide),
   (pressure_decode 0xD2 5 6 (by decide) (by decide)).2 (by decide)⟩

/-- Claim C10: the kind-specific accessors `note`, `velocity`,
`cc_controller`, `cc_value` and `program_number` return the corresponding
raw data byte unchanged — no 7-bit masking and no range validation — even
when the byte has its top bit set (value 128–255), on every window
satisfying the accessor's kind precondition. -/
theorem accessors_no_masking (s d0 d1 : Nat)
    (h0 : d0 < 256) (h1 : d1 < 256) (htop0 : 128 ≤ d0) (htop1 : 128 ≤ d1) :
    (MessageView.note_expected ⟨s, d0, d1⟩ → MessageView.note ⟨s, d0, d1⟩ = d0) ∧
    (MessageView.velocity_expected ⟨s, d0, d1⟩ → MessageView.velocity ⟨s, d0, d1⟩ = d1) ∧
    (MessageView.cc_expected ⟨s, d0, d1⟩ →
      MessageView.cc_controller ⟨s, d0, d1⟩ = d0 ∧ MessageView.cc_value ⟨s, d0, d1⟩ = d1) ∧
    (MessageView.program_expected ⟨s, d0, d1⟩ → MessageView.program_number ⟨s, d0, d1⟩ = d0) := by
  refine ⟨fun _ => ?_, fun _ => ?_, fun _ => ⟨?_, ?_⟩, fun _ => ?_⟩ <;>
    simp [MessageView.note, MessageView.velocity, MessageView.cc_controller,
      MessageView.cc_value, MessageView.program_number,
      Nat.mod_eq_of_lt h0, Nat.mod_eq_of_lt h1]

/-- Concrete instance of C10: a ControlChange window whose data bytes are
200 and 129 (top bit set) is returned unmasked by `cc_controller` and
`cc_value`. -/
theorem accessors_no_masking_witness :
    MessageView.cc_controller ⟨0xB0, 200, 129⟩ = 200 ∧
    MessageView.cc_value ⟨0xB0, 200, 129⟩ = 129 :=
  (accessors_no_masking 0xB0 200 129 (by decide) (by decide) (by decide) (by decide)).2.2.1
    (by simp [MessageView.cc_expected]; decide)

/-- Claim C9: no operation of the core — construction, classification, any
field accessor, element access or iteration — modifies the underlying byte
buffer: the buffer coming out of `runOp` is the buffer that went in. -/
theorem ops_preserve_buffer (op : CoreOp) (buf : List Nat) :
    (runOp op buf).2 = buf := by
  cases op <;> rfl

/-- Applying `operator++` `k` times moves the byte offset forward by `3k`
and leaves the buffer reference alone. -/
theorem incN_eq (it : MessageIterator) (k : Nat) :
    it.incN k = ⟨it.buf, it._span_it + 3 * (k : Int)⟩ := by
  induction k with
  | zero => simp [MessageIterator.incN]
  | succ k ih =>
    simp only [MessageIterator.incN, ih, MessageIterator.inc]
    simp only [MessageIterator.mk.injEq, true_and]
    push_cast
    ring

/-- Dereferencing an iterator parked at byte offset `3i` yields the
`MessageView` over bytes `[3i, 3i+3)`. -/
theorem deref_at (buf : List Nat) (i : Nat) :
    MessageIterator.deref ⟨buf, 3 * (i : Int)⟩ = viewAt buf i := by
  have h1 : (3 * (i : Int)).toNat = 3 * i := by omega
  simp [MessageIterator.deref, viewAt, h1]

/-- Claim C4: a sequence view over a buffer of length `3n` has exactly `n`
elements, and element `i` — whether obtained through the iterator's
subscript or by stepping the iterator `i` times from the start — is the
`MessageView` over buffer bytes `[3i, 3i+3)`, for every `i < n`. -/
theorem sequence_elements (buf : List Nat) (n i : Nat)
    (hlen : buf.length = 3 * n) (hi : i < n) :
    MessagesView.element_count ⟨buf⟩ = n ∧
    (MessagesView.begin ⟨buf⟩).index (i : Int) = viewAt buf i ∧
    ((MessagesView.begin ⟨buf⟩).incN i).deref = viewAt buf i := by
  have hadd : (MessagesView.begin ⟨buf⟩).add (i : Int) = ⟨buf, 3 * (i : Int)⟩ := by
    simp [MessagesView.begin, MessageIterator.add]
  have hincN : (MessagesView.begin ⟨buf⟩).incN i = ⟨buf, 3 * (i : Int)⟩ := by
    rw [incN_eq]
    simp [MessagesView.begin]
  refine ⟨?_, ?_, ?_⟩
  · simp only [MessagesView.element_count]
    omega
  · rw [MessageIterator.index, hadd, deref_at]
  · rw [hincN, deref_at]

/-- Concrete instance of C4: a 6-byte buffer has 2 elements and element 1
is the view over its last 3 bytes. -/
theorem sequence_elements_witness :
    MessagesView.element_count ⟨[0x90, 0x3C, 0x64, 0xE0, 0x00, 0x40]⟩ = 2 ∧
    (MessagesView.begin ⟨[0x90, 0x3C, 0x64, 0xE0, 0x00, 0x40]⟩).index ((1 : Nat) : Int) =
      viewAt [0x90, 0x3C, 0x64, 0xE0, 0x00, 0x40] 1 ∧
    ((MessagesView.begin ⟨[0x90, 0x3C, 0x64, 0xE0, 0x00, 0x40]⟩).incN 1).deref =
      viewAt [0x90, 0x3C, 0x64, 0xE0, 0x00, 0x40] 1 :=
  sequence_elements [0x90, 0x3C, 0x64, 0xE0, 0x00, 0x40] 2 1 rfl (by decide)

/-- Claim C6: for in-range iterator positions, stepping forward one element
and then backward one element restores the original position, and the
distance between the positions at element indices `i` and `j` is `i - j`,
counted in elements, not bytes. -/
theorem iterator_roundtrip_distance (buf : List Nat) (n i j : Nat)
    (hlen : buf.length = 3 * n) (hi : i ≤ n) (hj : j ≤ n) :
    (MessageIterator.inc ⟨buf, 3 * (i : Int)⟩).dec = ⟨buf, 3 * (i : Int)⟩ ∧
    MessageIterator.distance ⟨buf, 3 * (i : Int)⟩ ⟨buf, 3 * (j : Int)⟩ = (i : Int) - j := by
  constructor
  · simp [MessageIterator.inc, MessageIterator.dec]
  · simp only [MessageIterator.distance]
    have h3 : (3 : Int) * (i : Int) - 3 * (j : Int) = 3 * ((i : Int) - j) := by ring
    rw [h3, Int.mul_tdiv_cancel_left _ (by norm_num)]

/-- Concrete instance of C6: in a 2-element buffer, position 1 steps up and
back to itself, and its distance to position 0 is 1. -/
theorem iterator_roundtrip_distance_witness :
    (MessageIterator.inc ⟨[0x90, 0x3C, 0x64, 0xE0, 0x00, 0x40], 3 * ((1 : Nat) : Int)⟩).dec =
      ⟨[0x90, 0x3C, 0x64, 0xE0, 0x00, 0x40], 3 * ((1 : Nat) : Int)⟩ ∧
    MessageIterator.distance ⟨[0x90, 0x3C, 0x64, 0xE0, 0x00, 0x40], 3 * ((1 : Nat) : Int)⟩
      ⟨[0x90, 0x3C, 0x64, 0xE0, 0x00, 0x40], 3 * ((0 : Nat) : Int)⟩ =
      ((1 : Nat) : Int) - ((0 : Nat) : Int) :=
  iterator_roundtrip_distance [0x90, 0x3C, 0x64, 0xE0, 0x00, 0x40] 2 1 0 rfl
    (by decide) (by decide)

end midi

end chrds
